import Mathlib

set_option autoImplicit false

namespace MotoS3

/-! Shallow embedding of moto/s3/responses.py (the S3 request dispatcher) together with
spec-modelled fragments of the backend store (the models and exceptions modules are not
under src/). Definitions first, then the theorems settling the spec claims. -/

/-- A header mapping (request or response headers): an ordered association list; lookup
returns the first binding, mirroring a Python dict with unique keys. -/
abbrev Headers := List (String × String)

def headerGet (hs : Headers) (k : String) : Option String :=
  (hs.find? (fun p => p.1 == k)).map (fun p => p.2)

/-- Python dict assignment `headers[k] = v`: overwrite the binding in place if present,
otherwise append it. -/
def headerSet (hs : Headers) (k v : String) : Headers :=
  if (hs.find? (fun p => p.1 == k)).isSome then
    hs.map (fun p => if p.1 == k then (k, v) else p)
  else
    hs ++ [(k, v)]

/-- Python exceptions that cross function boundaries in responses.py. `s3client` stands for
the whole S3ClientError family (protocol error-code string, HTTP status code, description);
NotImplementedError and the builtins KeyError / ValueError / AttributeError are outside that
family and are never caught by the dispatcher's `except S3ClientError`. -/
inductive PyExc where
  | s3client (errorCode : String) (status : Nat) (description : String)
  | notImplementedError (msg : String)
  | keyError
  | valueError
  | attributeError
deriving DecidableEq, Repr

/-- Modelled from the spec: the exceptions module is not under src/. `InvalidPartOrder` is
the OrderingViolation member of the S3ClientError family raised on multipart completion. -/
def invalidPartOrder : PyExc :=
  PyExc.s3client "InvalidPartOrder" 400
    "The list of parts was not in ascending order. The parts list must be specified in order by part number."

/-- Modelled from the spec: the exceptions module is not under src/. `BucketAlreadyExists`
is the Conflict member of the S3ClientError family raised on a duplicate bucket name. -/
def bucketAlreadyExistsExc : PyExc :=
  PyExc.s3client "BucketAlreadyExists" 409
    "The requested bucket name is not available. Please select a different name and try again"

/-- Modelled from the spec: the exceptions module is not under src/. `NoSuchBucket` is the
NotFound member of the S3ClientError family raised when a named bucket is absent. -/
def noSuchBucketExc : PyExc :=
  PyExc.s3client "NoSuchBucket" 404 "The specified bucket does not exist"

/-- The dynamic type test performed by `except BucketAlreadyExists` (line 205). -/
def PyExc.isBucketAlreadyExists : PyExc → Bool
  | PyExc.s3client ec _ _ => ec == "BucketAlreadyExists"
  | _ => false

/-- Python `str.split(sep)` for a one-character separator, on explicit character lists:
`"".split(sep)` is `[""]`, separators at the ends produce empty fields. -/
def splitOnChar (sep : Char) : List Char → List (List Char)
  | [] => [[]]
  | c :: cs =>
    if c = sep then [] :: splitOnChar sep cs
    else
      match splitOnChar sep cs with
      | [] => [[c]]
      | r :: rs => (c :: r) :: rs

def pySplit (sep : Char) (s : String) : List String :=
  (splitOnChar sep s.data).map String.mk

def digitsToNat (ds : List Char) : Nat :=
  ds.foldl (fun n c => n * 10 + (c.toNat - 48)) 0

/-- Python `int(...)` on the strings arising here (runs of decimal digits); any other
string raises ValueError, modelled as `none`. -/
def pyInt? (s : String) : Option Int :=
  if s.data ≠ [] ∧ s.data.all Char.isDigit then some (Int.ofNat (digitsToNat s.data))
  else none

/-- `toint` from `_handle_range_header` (line 287): the empty string maps to Python None;
a non-numeric string raises ValueError. -/
def toint (s : String) : Except PyExc (Option Int) :=
  if s = "" then Except.ok none
  else
    match pyInt? s with
    | some n => Except.ok (some n)
    | none => Except.error PyExc.valueError

/-- Shallow embedding of the arithmetic of `_handle_range_header` (lines 287-300), after
the range specifier has been split at the dash and converted by `toint`: `begin?`/`end?`
are the two optional integers; `content` is the response content (its elements are bytes on
the object path). Returns the (status, headers, body) triple the Python code returns. -/
def handle_range_header_core {α : Type} (headers : Headers) (content : List α)
    (begin? end? : Option Int) : Nat × Headers × List α :=
  let length : Int := content.length
  let last : Int := length - 1
  match begin?, end? with
  | none, none => (400, headers, [])
  | some b, e? =>
    let e : Int := match e? with | none => last | some ev => min ev last
    if b < 0 ∨ e > last ∨ b > min e last then (416, headers, [])
    else
      (206,
       headerSet headers "content-range"
         ("bytes " ++ toString b ++ "-" ++ toString e ++ "/" ++ toString length),
       (content.drop b.toNat).take (e + 1 - b).toNat)
  | none, some ev =>
    let b : Int := length - min ev length
    let e : Int := last
    if b < 0 ∨ e > last ∨ b > min e last then (416, headers, [])
    else
      (206,
       headerSet headers "content-range"
         ("bytes " ++ toString b ++ "-" ++ toString e ++ "/" ++ toString length),
       (content.drop b.toNat).take (e + 1 - b).toNat)

/-- Shallow embedding of `_handle_range_header` (lines 280-300) from the raw value of the
request's `range` header: split at `=` (exactly two pieces, else ValueError from the tuple
unpacking), raise NotImplementedError if the specifier contains a comma, then split the
specifier at `-` and convert both pieces with `toint`. -/
def handle_range_header {α : Type} (headers : Headers) (content : List α)
    (rangeValue : String) : Except PyExc (Nat × Headers × List α) := do
  let rspec ← match pySplit '=' rangeValue with
    | [_, r] => Except.ok r
    | _ => Except.error PyExc.valueError
  if rspec.data.contains ',' then
    Except.error (PyExc.notImplementedError "Multiple range specifiers not supported")
  else
    match pySplit '-' rspec with
    | [bs, es] => do
      let b? ← toint bs
      let e? ← toint es
      Except.ok (handle_range_header_core headers content b? e?)
    | _ => Except.error PyExc.valueError

/-- The Range Resolver exactly as the specification words it (section 4.5): with content
length `L`, form begin-end defaults the end to `L-1` when absent, else clamps it to `L-1`;
form -suffixLength sets begin to `L - min(suffixLength, L)` and end to `L-1`; the result is
unsatisfiable (`none`) if afterwards begin is negative, end exceeds `L-1`, or begin exceeds
`min(end, L-1)`. This is the spec-side definition compared against the source embedding. -/
def rangeResolverSpec (L : Int) : Option Int → Option Int → Option (Int × Int)
  | some b, e? =>
    let e : Int := match e? with | none => L - 1 | some ev => min ev (L - 1)
    if b < 0 ∨ e > L - 1 ∨ b > min e (L - 1) then none else some (b, e)
  | none, some suffixLen =>
    let b : Int := L - min suffixLen L
    let e : Int := L - 1
    if b < 0 ∨ e > L - 1 ∨ b > min e (L - 1) then none else some (b, e)
  | none, none => none

/-- The loop of `_complete_multipart_body` (lines 485-492) over the already-parsed `<Part>`
elements, each given as its (PartNumber, ETag) pair. Exactly as in the source, `prev` is
initialised to 0 by the caller and never reassigned inside the loop, so the guard
`pn <= prev` compares every part number against 0. The generator's yielded pairs are
collected into the returned list. -/
def complete_multipart_body_loop (prev : Int) :
    List (Int × String) → Except PyExc (List (Int × String))
  | [] => Except.ok []
  | (pn, etag) :: ps =>
    if pn ≤ prev then Except.error invalidPartOrder
    else do
      let rest ← complete_multipart_body_loop prev ps
      Except.ok ((pn, etag) :: rest)

/-- `_complete_multipart_body`: `prev = 0`, then the loop. -/
def complete_multipart_body (parts : List (Int × String)) :
    Except PyExc (List (Int × String)) :=
  complete_multipart_body_loop 0 parts

/-- A handler's raw return value before the dispatcher shapes it: Python handlers return
either a bare string (shaped to status 200 with the incoming headers) or an explicit
(status, headers, body) triple; the shape is told apart by `isinstance(response, str)`. -/
inductive RawResponse (β : Type) where
  | str (s : β)
  | triple (status : Nat) (headers : Headers) (body : β)
deriving DecidableEq, Repr

/-- UTF-8 bytes of a string: `s3error.description` becomes the body on the key path, whose
bodies are byte lists. -/
def strBytes (s : String) : List Nat := s.toUTF8.toList.map (fun b => b.toNat)

/-- Shallow embedding of `bucket_response` (lines 44-54): run `_bucket_response` (its result
is the `inner` argument), catch exactly the S3ClientError family into the triple
(error code, incoming headers, error description), then shape a bare string as a 200.
Anything outside that family propagates as a raw failure. The final `.encode("utf-8")` is a
transport detail; bodies stay strings here. -/
def bucket_response (headers : Headers) (inner : Except PyExc (RawResponse String)) :
    Except PyExc (Nat × Headers × String) :=
  let response : Except PyExc (RawResponse String) :=
    match inner with
    | Except.error (PyExc.s3client _ st d) => Except.ok (RawResponse.triple st headers d)
    | r => r
  match response with
  | Except.error e => Except.error e
  | Except.ok (RawResponse.str s) => Except.ok (200, headers, s)
  | Except.ok (RawResponse.triple st hs b) => Except.ok (st, hs, b)

/-- Shallow embedding of `key_response` (lines 302-316): run `_key_response` (its result is
the `inner` argument), catch exactly the S3ClientError family, shape a bare string as a 200,
then - only when the shaped status is 200 and the request carries a `range` header - hand the
shaped headers and body to `_handle_range_header`, whose exceptions (raised after the catch)
propagate raw. Bodies on this path are byte lists. -/
def key_response (headers requestHeaders : Headers)
    (inner : Except PyExc (RawResponse (List Nat))) :
    Except PyExc (Nat × Headers × List Nat) :=
  let response : Except PyExc (RawResponse (List Nat)) :=
    match inner with
    | Except.error (PyExc.s3client _ st d) =>
      Except.ok (RawResponse.triple st headers (strBytes d))
    | r => r
  match response with
  | Except.error e => Except.error e
  | Except.ok r =>
    let shaped : Nat × Headers × List Nat :=
      match r with
      | RawResponse.str s => (200, headers, s)
      | RawResponse.triple st hs b => (st, hs, b)
    match headerGet requestHeaders "range" with
    | some rangeValue =>
      if shaped.1 = 200 then handle_range_header shaped.2.1 shaped.2.2 rangeValue
      else Except.ok shaped
    | none => Except.ok shaped

/-- The method dispatch of `_bucket_response` (lines 78-89), each method's handler result
abstracted as a parameter: an unrecognized method raises a hard NotImplementedError (the
source's message, typo included). -/
def bucket_response_method_dispatch (method : String)
    (onHead onGet onPut onDelete onPost : Except PyExc (RawResponse String)) :
    Except PyExc (RawResponse String) :=
  if method = "HEAD" then onHead
  else if method = "GET" then onGet
  else if method = "PUT" then onPut
  else if method = "DELETE" then onDelete
  else if method = "POST" then onPost
  else
    Except.error (PyExc.notImplementedError
      ("Method " ++ method ++ " has not been impelemented in the S3 backend yet"))

/-- The method dispatch of `_key_response` (lines 333-344), handlers abstracted. -/
def key_response_method_dispatch (method : String)
    (onGet onPut onHead onDelete onPost : Except PyExc (RawResponse (List Nat))) :
    Except PyExc (RawResponse (List Nat)) :=
  if method = "GET" then onGet
  else if method = "PUT" then onPut
  else if method = "HEAD" then onHead
  else if method = "DELETE" then onDelete
  else if method = "POST" then onPost
  else
    Except.error (PyExc.notImplementedError
      ("Method " ++ method ++ " has not been impelemented in the S3 backend yet"))

/-- A bucket of the backend store, reduced to what the claims need: its globally unique
name, its creation region and the names of the objects it owns. -/
structure FakeBucket where
  name : String
  region : String
  keys : List String
deriving DecidableEq, Repr

/-- The backend store: the process-wide bucket namespace. -/
structure S3Backend where
  buckets : List FakeBucket
deriving DecidableEq, Repr

def findBucket (st : S3Backend) (name : String) : Option FakeBucket :=
  st.buckets.find? (fun b => b.name == name)

/-- Modelled from the spec: `createBucket(name, region)` of the backend store (the models
module is not under src/) creates a new empty bucket, failing with `BucketAlreadyExists` if
the name is taken by any region (the name is global). -/
def create_bucket (st : S3Backend) (name region : String) :
    Except PyExc (S3Backend × FakeBucket) :=
  if (findBucket st name).isSome then Except.error bucketAlreadyExistsExc
  else
    let b : FakeBucket := { name := name, region := region, keys := [] }
    Except.ok ({ buckets := st.buckets ++ [b] }, b)

/-- Modelled from the spec: `getBucket(name)` returns the bucket or fails with
`NoSuchBucket`. -/
def get_bucket (st : S3Backend) (name : String) : Except PyExc FakeBucket :=
  match findBucket st name with
  | some b => Except.ok b
  | none => Except.error noSuchBucketExc

/-- Modelled from the spec: `deleteBucket(name)` removes the bucket only if it owns zero
objects, returning the removed bucket; a non-empty (or absent) bucket is left in place and a
falsy None is returned - a reportable conflict, not an exception. -/
def delete_bucket (st : S3Backend) (name : String) : S3Backend × Option FakeBucket :=
  match findBucket st name with
  | some b =>
    if b.keys = [] then
      ({ buckets := st.buckets.filter (fun b2 => b2.name != name) }, some b)
    else (st, none)
  | none => (st, none)

/-- Modelled from the spec: `deleteKey(bucket, name)` removes the key, failing with a
KeyError when it is absent (the source's own `_key_response_delete`, lines 478-481, catches
exactly KeyError around this call). The state is the key-name list of the target bucket. -/
def delete_key (keys : List String) (name : String) : Except PyExc (List String) :=
  if name ∈ keys then Except.ok (keys.erase name) else Except.error PyExc.keyError

def DEFAULT_REGION_NAME : String := "us-east-1"

/-- Rendering of the S3_BUCKET_CREATE_RESPONSE template (whitespace normalized). -/
def renderBucketCreate (b : FakeBucket) : String :=
  "<CreateBucketResponse><CreateBucketResponse><Bucket>" ++ b.name ++
    "</Bucket></CreateBucketResponse></CreateBucketResponse>"

/-- The bucket-creation else-branch of `_bucket_response_put` (lines 202-212): try
`create_bucket`; on `BucketAlreadyExists` silently reuse the existing bucket when the
requested region is the default region, otherwise re-raise; render the creation response
with status 200. Returns the updated store with the response. -/
def bucket_response_put_create (st : S3Backend) (region_name bucket_name : String)
    (headers : Headers) : Except PyExc (S3Backend × (Nat × Headers × String)) :=
  let attempt : Except PyExc (S3Backend × FakeBucket) :=
    match create_bucket st bucket_name region_name with
    | Except.ok r => Except.ok r
    | Except.error e =>
      if e.isBucketAlreadyExists then
        if region_name = DEFAULT_REGION_NAME then
          match get_bucket st bucket_name with
          | Except.ok b => Except.ok (st, b)
          | Except.error e2 => Except.error e2
        else Except.error e
      else Except.error e
  match attempt with
  | Except.error e => Except.error e
  | Except.ok (st2, new_bucket) =>
    Except.ok (st2, (200, headers, renderBucketCreate new_bucket))

/-- The subresource dispatch of `_bucket_response_put` (lines 175-212): the five recognized
query-string markers are checked in order, their branch results abstracted as parameters
(they live partly outside src/); with none of them present, control reaches the
bucket-creation branch. -/
def bucket_response_put (st : S3Backend) (querystring : List String)
    (region_name bucket_name : String) (headers : Headers)
    (onVersioning onLifecycle onPolicy onAcl onWebsite :
      Except PyExc (S3Backend × (Nat × Headers × String))) :
    Except PyExc (S3Backend × (Nat × Headers × String)) :=
  if "versioning" ∈ querystring then onVersioning
  else if "lifecycle" ∈ querystring then onLifecycle
  else if "policy" ∈ querystring then onPolicy
  else if "acl" ∈ querystring then onAcl
  else if "website" ∈ querystring then onWebsite
  else bucket_response_put_create st region_name bucket_name headers

/-- Rendering of the S3_DELETE_BUCKET_SUCCESS template. -/
def renderDeleteBucketSuccess : String :=
  "<DeleteBucketResponse><DeleteBucketResponse><Code>204</Code><Description>No Content</Description></DeleteBucketResponse></DeleteBucketResponse>"

/-- Rendering of the S3_DELETE_BUCKET_WITH_ITEMS_ERROR template; the template receives the
falsy removed-bucket value, so its BucketName interpolation renders empty. -/
def renderBucketNotEmpty : String :=
  "<Error><Code>BucketNotEmpty</Code><Message>The bucket you tried to delete is not empty</Message><BucketName></BucketName><RequestId>asdfasdfsdafds</RequestId><HostId>sdfgdsfgdsfgdfsdsfgdfs</HostId></Error>"

/-- Shallow embedding of `_bucket_response_delete` (lines 214-232): the policy and lifecycle
marker branches are abstracted as parameters; the default branch calls `delete_bucket` and
answers 204 on removal, else 409 with the BucketNotEmpty error body - in both cases a
normal return, not a raised exception. -/
def bucket_response_delete (st : S3Backend) (querystring : List String)
    (bucket_name : String) (headers : Headers)
    (onPolicy onLifecycle : Except PyExc (S3Backend × (Nat × Headers × String))) :
    Except PyExc (S3Backend × (Nat × Headers × String)) :=
  if "policy" ∈ querystring then onPolicy
  else if "lifecycle" ∈ querystring then onLifecycle
  else
    let (st2, removed_bucket) := delete_bucket st bucket_name
    match removed_bucket with
    | some _ => Except.ok (st2, (204, headers, renderDeleteBucketSuccess))
    | none => Except.ok (st2, (409, headers, renderBucketNotEmpty))

/-- The loop of `_bucket_response_delete_keys` (lines 270-276) over the `<Key>` names of
the request body: each name is deleted independently, a KeyError adds the name to the error
list without stopping the loop. Returns (deleted names, errored names, final key state). -/
def delete_keys_loop : List String → List String → List String × List String × List String
  | [], keys => ([], [], keys)
  | k :: ks, keys =>
    match delete_key keys k with
    | Except.ok keys2 =>
      let r := delete_keys_loop ks keys2
      (k :: r.1, r.2.1, r.2.2)
    | Except.error _ =>
      let r := delete_keys_loop ks keys
      (r.1, k :: r.2.1, r.2.2)

/-- Rendering of the S3_DELETE_KEYS_RESPONSE template: the deleted names and the errored
names are listed separately. -/
def renderDeleteKeys (deleted delete_errors : List String) : String :=
  "<DeleteResult>" ++
    String.join (deleted.map (fun k => "<Deleted><Key>" ++ k ++ "</Key></Deleted>")) ++
    String.join (delete_errors.map (fun k => "<Error><Key>" ++ k ++ "</Key></Error>")) ++
    "</DeleteResult>"

/-- Shallow embedding of `_bucket_response_delete_keys` (lines 263-278): run the loop over
the parsed `<Key>` names and always answer status 200 with the two lists rendered. The final
key state is returned alongside the response. -/
def bucket_response_delete_keys (keyNames : List String) (keys : List String)
    (headers : Headers) : (Nat × Headers × String) × List String :=
  let r := delete_keys_loop keyNames keys
  ((200, headers, renderDeleteKeys r.1 r.2.1), r.2.2)

/-- An object of the store, reduced to what the restore claim needs: its restore expiry
date, absent until the first restore. -/
structure FakeKey where
  name : String
  expiry_date : Option Nat
deriving DecidableEq, Repr

/-- Modelled from the spec: `key.restore(days)` of the models module (not under src/)
(re)sets the key's restore state from the supplied number of days: the restore expiry date
becomes `days` days from the current date `today`. -/
def FakeKey.restore (key : FakeKey) (today days : Nat) : FakeKey :=
  { key with expiry_date := some (today + days) }

/-- The restore branch of `_key_response_post` (lines 517-525): `days` is the integer
content of the body's `<Days>` element (the XML extraction is a transport detail); the
status is 200 when the key's restore expiry date is already set, else 202; in both cases the
key is restored anew from `days`. Returns the response together with the updated key. -/
def key_response_post_restore (key : FakeKey) (today days : Nat) (headers : Headers) :
    (Nat × Headers × String) × FakeKey :=
  let r : Nat := if key.expiry_date ≠ none then 200 else 202
  ((r, headers, ""), key.restore today days)

/-- A grantee of an ACL grant: either a canonical identifier (`FakeGrantee(id=...)`) or a
named group URI (`FakeGrantee(uri=...)`). -/
inductive FakeGrantee where
  | canonicalId (gid : String)
  | groupUri (uri : String)
deriving DecidableEq, Repr

structure FakeGrant where
  grantees : List FakeGrantee
  permissions : List String
deriving DecidableEq, Repr

structure FakeAcl where
  grants : List FakeGrant
deriving DecidableEq, Repr

def OWNER_ID : String := "75aa57f09aa0c8caeab4f8c24e99d10f8e7faeebf76c078efc7c6caea54ba06a"

def ALL_USERS_URI : String := "http://acs.amazonaws.com/groups/global/AllUsers"

def AUTH_USERS_URI : String := "http://acs.amazonaws.com/groups/global/AuthenticatedUsers"

/-- Modelled from the spec: `get_canned_acl` of the models module (not under src/) is the
fixed lookup table expanding a canned-ACL name deterministically into a grant list; the
owner always receives FULL_CONTROL, the standard group grants follow the canned name. -/
def get_canned_acl (canned : String) : FakeAcl :=
  let owner : FakeGrant :=
    { grantees := [FakeGrantee.canonicalId OWNER_ID], permissions := ["FULL_CONTROL"] }
  if canned = "public-read" then
    { grants := [owner, { grantees := [FakeGrantee.groupUri ALL_USERS_URI],
                          permissions := ["READ"] }] }
  else if canned = "public-read-write" then
    { grants := [owner, { grantees := [FakeGrantee.groupUri ALL_USERS_URI],
                          permissions := ["READ", "WRITE"] }] }
  else if canned = "authenticated-read" then
    { grants := [owner, { grantees := [FakeGrantee.groupUri AUTH_USERS_URI],
                          permissions := ["READ"] }] }
  else { grants := [owner] }

/-- `p` is a leading piece of `s` (Python `s.startswith(p)`), on character lists so that it
evaluates structurally. -/
def strStarts (p s : String) : Bool := p.data.isPrefixOf s.data

def strDrop (s : String) (n : Nat) : String := String.mk (s.data.drop n)

def lowerStr (s : String) : String := String.mk (s.data.map Char.toLower)

/-- The permission lookup dict of `_acl_from_headers` (lines 451-457); an unrecognized
suffix raises KeyError. -/
def grantPermission? (sfx : String) : Option String :=
  if sfx = "read" then some "READ"
  else if sfx = "write" then some "WRITE"
  else if sfx = "read-acp" then some "READ_ACP"
  else if sfx = "write-acp" then some "WRITE_ACP"
  else if sfx = "full-control" then some "FULL_CONTROL"
  else none

def isPySpace (c : Char) : Bool :=
  c == ' ' || c == '\t' || c == '\n' || c == '\r' || c == '\x0b' || c == '\x0c'

def stripChars (l : List Char) : List Char :=
  ((l.dropWhile isPySpace).reverse.dropWhile isPySpace).reverse

/-- `re.match(r'([^=]+)="([^"]+)"', item.strip())` of line 461: after stripping whitespace,
a nonempty run of non-equals characters, then an equals sign and an opening quote, then a
nonempty run of non-quote characters closed by a quote (trailing text is allowed, as
`re.match` only anchors the start); a failed match is Python None, whose `.groups()` call
raises AttributeError. -/
def parseGrantItem (s : String) : Option (String × String) :=
  let cs := stripChars s.data
  let key := cs.takeWhile (fun c => c != '=')
  match key, cs.dropWhile (fun c => c != '=') with
  | [], _ => none
  | _ :: _, '=' :: '"' :: r2 =>
    let v := r2.takeWhile (fun c => c != '"')
    match v, r2.dropWhile (fun c => c != '"') with
    | [], _ => none
    | _ :: _, '"' :: _ => some (String.mk key, String.mk v)
    | _, _ => none
  | _, _ => none

/-- Lines 459-465: split the grant header's value at commas; each `key="value"` item
becomes one grantee - a canonical-identifier grantee when the key (case-insensitively) is
`id`, a URI grantee otherwise. -/
def parseGrantees (value : String) : Except PyExc (List FakeGrantee) :=
  (pySplit ',' value).mapM (fun item =>
    match parseGrantItem item with
    | some (k, v) =>
      Except.ok (if lowerStr k = "id" then FakeGrantee.canonicalId v else FakeGrantee.groupUri v)
    | none => Except.error PyExc.attributeError)

/-- The header loop of `_acl_from_headers` (lines 446-466): headers are scanned in order,
non-grant headers are skipped, each `x-amz-grant-` header contributes one grant carrying its
parsed grantees and the single permission looked up from its suffix. -/
def gatherGrants : Headers → Except PyExc (List FakeGrant)
  | [] => Except.ok []
  | (header, value) :: rest =>
    if strStarts "x-amz-grant-" header then
      match grantPermission? (strDrop header 12) with
      | none => Except.error PyExc.keyError
      | some permission => do
        let grantees ← parseGrantees value
        let more ← gatherGrants rest
        Except.ok ({ grantees := grantees, permissions := [permission] } :: more)
    else gatherGrants rest

/-- Shallow embedding of `_acl_from_headers` (lines 441-471): a present, non-empty canned
ACL header short-circuits to the canned expansion; otherwise the grant headers are gathered
and an empty gather yields Python None - the distinct no-ACL-specified result. -/
def acl_from_headers (headers : Headers) : Except PyExc (Option FakeAcl) :=
  let canned := (headerGet headers "x-amz-acl").getD ""
  if canned ≠ "" then Except.ok (some (get_canned_acl canned))
  else do
    let grants ← gatherGrants headers
    if grants.isEmpty then Except.ok none else Except.ok (some { grants := grants })

/-- Spec-side (section 4.4): one grant-permission header becomes exactly one grant carrying
the single permission of its suffix and the grantees parsed from its value. -/
def specGrantOfHeader (h : String × String) : Except PyExc FakeGrant :=
  match grantPermission? (strDrop h.1 12) with
  | none => Except.error PyExc.keyError
  | some permission => do
    let grantees ← parseGrantees h.2
    Except.ok { grantees := grantees, permissions := [permission] }

def grantsOfHeaders : List (String × String) → Except PyExc (List FakeGrant)
  | [] => Except.ok []
  | h :: t => do
    let g ← specGrantOfHeader h
    let more ← grantsOfHeaders t
    Except.ok (g :: more)

/-- The ACL Resolver as the specification words it (section 4.4): with no canned header,
the headers matching the grant-permission naming pattern are selected and each one becomes
one grant; this spec-side definition builds them by filtering and mapping rather than by
the source's fold, and is compared against `acl_from_headers`. -/
def aclResolverSpecGrants (headers : Headers) : Except PyExc (List FakeGrant) :=
  grantsOfHeaders (headers.filter (fun h => strStarts "x-amz-grant-" h.1))

/-- Spec-side ACL resolver (section 4.4), to be compared against `acl_from_headers`. -/
def aclResolverSpec (headers : Headers) : Except PyExc (Option FakeAcl) :=
  let canned := (headerGet headers "x-amz-acl").getD ""
  if canned ≠ "" then Except.ok (some (get_canned_acl canned))
  else do
    let grants ← aclResolverSpecGrants headers
    Except.ok (if grants.isEmpty then none else some { grants := grants })

/-- Concatenation of rendered fragments (a Jinja for-loop body emits its pieces back to
back). -/
def strConcat (l : List String) : String := l.foldr (fun a b => a ++ b) ""

/-- The metadata of one key as the listing template interpolates it. -/
structure KeyRenderInfo where
  name : String
  lastModified : String
  etag : String
  size : Nat
  storageClass : String
deriving DecidableEq, Repr

/-- One `<Contents>` entry of the S3_BUCKET_GET_RESPONSE template (whitespace
normalized). -/
def renderListContents (k : KeyRenderInfo) : String :=
  "<Contents><Key>" ++ k.name ++ "</Key><LastModified>" ++ k.lastModified ++
    "</LastModified><ETag>" ++ k.etag ++ "</ETag><Size>" ++ toString k.size ++
    "</Size><StorageClass>" ++ k.storageClass ++
    "</StorageClass><Owner><ID>" ++ OWNER_ID ++
    "</ID><DisplayName>webfile</DisplayName></Owner></Contents>"

/-- Jinja renders Python None as the text None. -/
def optRender : Option String → String
  | none => "None"
  | some s => s

/-- Jinja truthiness of an optional string (`{% if delimiter %}`): None and the empty
string are falsy. -/
def jinjaTruthy : Option String → Bool
  | none => false
  | some s => s != ""

/-- The fixed head of the S3_BUCKET_GET_RESPONSE template up to the IsTruncated marker. -/
def renderListHead (bucketName : String) (pfx delim : Option String) : String :=
  "<?xml version=\"1.0\" encoding=\"UTF-8\"?><ListBucketResult><Name>" ++ bucketName ++
    "</Name><Prefix>" ++ optRender pfx ++ "</Prefix><MaxKeys>1000</MaxKeys><Delimiter>" ++
    optRender delim ++ "</Delimiter>"

def renderFolders (delim : Option String) (result_folders : List String) : String :=
  if jinjaTruthy delim then
    strConcat (result_folders.map
      (fun f => "<CommonPrefixes><Prefix>" ++ f ++ "</Prefix></CommonPrefixes>"))
  else ""

/-- Rendering of the S3_BUCKET_GET_RESPONSE template (lines 546-573): the IsTruncated
element is the literal text false, every result key contributes one Contents entry, and the
common prefixes follow when a delimiter was given. -/
def renderBucketGetResponse (bucketName : String) (pfx delim : Option String)
    (result_keys : List KeyRenderInfo) (result_folders : List String) : String :=
  renderListHead bucketName pfx delim ++ "<IsTruncated>false</IsTruncated>" ++
    strConcat (result_keys.map renderListContents) ++ renderFolders delim result_folders ++
    "</ListBucketResult>"

/-- First occurrence of `pat` inside a character list, as an index. -/
def findSub (pat : List Char) : List Char → Option Nat
  | [] => if pat = [] then some 0 else none
  | c :: cs => if pat.isPrefixOf (c :: cs) then some 0 else (findSub pat cs).map (· + 1)

def dedupAux (seen : List String) : List String → List String
  | [] => []
  | x :: xs => if x ∈ seen then dedupAux seen xs else x :: dedupAux (x :: seen) xs

/-- First-occurrence deduplication of the common-prefix list. -/
def dedup (l : List String) : List String := dedupAux [] l

/-- Modelled from the spec (section 4.3, Listing Engine; the models module is not under
src/): keep the keys starting with the prefix (empty prefix keeps all); with a delimiter,
a key whose post-prefix remainder contains the delimiter collapses into the common prefix
running up through that first delimiter occurrence, the others are direct result keys; no
pagination or truncation is computed. -/
def prefix_query (keys : List KeyRenderInfo) (pfx delim : Option String) :
    List KeyRenderInfo × List String :=
  let p : String := pfx.getD ""
  let matching := keys.filter (fun k => strStarts p k.name)
  match delim with
  | none => (matching, [])
  | some d =>
    let direct := matching.filter
      (fun k => (findSub d.data (k.name.data.drop p.data.length)).isNone)
    let folders := matching.filterMap (fun k =>
      match findSub d.data (k.name.data.drop p.data.length) with
      | some i => some (String.mk (k.name.data.take (p.data.length + i + d.data.length)))
      | none => none)
    (direct, dedup folders)

/-- A query string as `parse_qs` produces it: each parameter maps to its value list. -/
abbrev QueryString := List (String × List String)

/-- `querystring.get(k, [None])[0]`: the first value when the parameter is present, else
Python None. -/
def qsGet (qs : QueryString) (k : String) : Option String :=
  match qs.find? (fun p => p.1 == k) with
  | some p => p.2.head?
  | none => none

/-- The default (object-listing) branch of `_bucket_response_get` (lines 162-173): only the
prefix and delimiter parameters are ever read; the full prefix-query result is rendered in
one response. `keyInfos` carries the bucket's key metadata as the template interpolates
it. -/
def bucket_response_get_list (bucket : FakeBucket) (keyInfos : List KeyRenderInfo)
    (qs : QueryString) (headers : Headers) : Nat × Headers × String :=
  let pfx := qsGet qs "prefix"
  let delimiter := qsGet qs "delimiter"
  let r := prefix_query keyInfos pfx delimiter
  (200, headers, renderBucketGetResponse bucket.name pfx delimiter r.1 r.2)

/-- The metadata of one object version as the version-listing template interpolates it. -/
structure VersionRenderInfo where
  name : String
  versionId : String
  lastModified : String
  etag : String
  size : Nat
  storageClass : String
deriving DecidableEq, Repr

/-- One `<Version>` entry of the S3_BUCKET_GET_VERSIONS template. -/
def renderVersionEntry (v : VersionRenderInfo) : String :=
  "<Version><Key>" ++ v.name ++ "</Key><VersionId>" ++ v.versionId ++
    "</VersionId><IsLatest>false</IsLatest><LastModified>" ++ v.lastModified ++
    "</LastModified><ETag>" ++ v.etag ++ "</ETag><Size>" ++ toString v.size ++
    "</Size><StorageClass>" ++ v.storageClass ++
    "</StorageClass><Owner><ID>" ++ OWNER_ID ++
    "</ID><DisplayName>webfile</DisplayName></Owner></Version>"

/-- The fixed head of the S3_BUCKET_GET_VERSIONS template up to the IsTruncated marker;
the KeyMarker interpolation is an unpassed Jinja variable and renders empty. -/
def renderVersionsHead (bucketName pfxR keyMarker maxKeysR : String) : String :=
  "<?xml version=\"1.0\" encoding=\"UTF-8\"?><ListVersionsResult><Name>" ++ bucketName ++
    "</Name><Prefix>" ++ pfxR ++ "</Prefix><KeyMarker>" ++ keyMarker ++
    "</KeyMarker><MaxKeys>" ++ maxKeysR ++ "</MaxKeys>"

/-- Rendering of the S3_BUCKET_GET_VERSIONS template (lines 648-671). -/
def renderBucketVersions (bucketName pfxR keyMarker maxKeysR isTruncated : String)
    (key_list : List VersionRenderInfo) : String :=
  renderVersionsHead bucketName pfxR keyMarker maxKeysR ++
    "<IsTruncated>" ++ isTruncated ++ "</IsTruncated>" ++
    strConcat (key_list.map renderVersionEntry) ++ "</ListVersionsResult>"

/-- Modelled from the spec: `get_bucket_versions` of the models module (not under src/)
accepts the delimiter, encoding-type, key-marker, max-keys and version-id-marker parameters
but implements no pagination - the full version set is returned regardless. -/
def get_bucket_versions (versions : List VersionRenderInfo)
    (_delimiter _encoding_type _key_marker _max_keys _version_id_marker : Option String) :
    List VersionRenderInfo :=
  versions

/-- The `versions` branch of `_bucket_response_get` (lines 135-160): the pagination
parameters are read and forwarded, the backend ignores them, and the template is rendered
with the literal arguments of lines 153-160 - in particular is_truncated is the text
false. -/
def bucket_response_get_versions (bucket : FakeBucket)
    (versions : List VersionRenderInfo) (qs : QueryString) (headers : Headers) :
    Nat × Headers × String :=
  let delimiter := qsGet qs "delimiter"
  let encoding_type := qsGet qs "encoding-type"
  let key_marker := qsGet qs "key-marker"
  let max_keys := qsGet qs "max-keys"
  let version_id_marker := qsGet qs "version-id-marker"
  let key_list :=
    get_bucket_versions versions delimiter encoding_type key_marker max_keys
      version_id_marker
  (200, headers, renderBucketVersions bucket.name "" "" "" "false" key_list)

/-- The ten-byte demonstration content of the claim's concrete examples. -/
def rangeDemoContent : List Nat := [0, 1, 2, 3, 4, 5, 6, 7, 8, 9]

/-! Helper lemmas. -/

theorem headerGet_headerSet (hs : Headers) (k v : String) :
    headerGet (headerSet hs k v) k = some v := by
  unfold headerSet
  by_cases h : (hs.find? (fun p => p.1 == k)).isSome
  · simp only [h, if_true]
    induction hs with
    | nil => simp at h
    | cons a rest ih =>
      by_cases ha : a.1 == k
      · simp [headerGet, List.find?, ha]
      · simp only [List.find?_cons, ha] at h
        simp only [List.map_cons, if_neg ha]
        have := ih h
        simpa [headerGet, List.find?, ha] using this
  · simp only [h, if_false, headerGet, List.find?_append]
    rw [Option.not_isSome_iff_eq_none] at h
    simp [h, List.find?]

theorem findBucket_filter_ne (l : List FakeBucket) (name : String) :
    (l.filter (fun b2 => b2.name != name)).find? (fun b => b.name == name) = none := by
  rw [List.find?_eq_none]
  intro x hx
  rcases List.mem_filter.mp hx with ⟨_, hne⟩
  simpa using hne

theorem strConcat_cons (x : String) (l : List String) :
    strConcat (x :: l) = x ++ strConcat l := rfl

theorem str_nil_append (s : String) : "" ++ s = s := rfl

theorem strConcat_of_mem {α : Type} (f : α → String) {a : α} {l : List α} (h : a ∈ l) :
    ∃ p q : String, strConcat (l.map f) = p ++ (f a ++ q) := by
  induction l with
  | nil => cases h
  | cons x xs ih =>
    rcases List.mem_cons.mp h with rfl | hmem
    · exact ⟨"", strConcat (xs.map f), by rw [str_nil_append]; rfl⟩
    · rcases ih hmem with ⟨p, q, hp⟩
      refine ⟨f x ++ p, q, ?_⟩
      rw [List.map_cons, strConcat_cons, hp, String.append_assoc]

/-- The inclusive slice `content[b:e+1]` taken by the range handler: its length is
`e + 1 - b` and its `i`-th element is element `b + i` of the content. -/
theorem slice_inclusive {α : Type} (l : List α) (b e : Int)
    (hb : 0 ≤ b) (he : e < (l.length : Int)) :
    ((l.drop b.toNat).take (e + 1 - b).toNat).length = (e + 1 - b).toNat ∧
    ∀ i : Nat, i < (e + 1 - b).toNat →
      ((l.drop b.toNat).take (e + 1 - b).toNat)[i]? = l[b.toNat + i]? := by
  constructor
  · rw [List.length_take, List.length_drop]
    omega
  · intro i hi
    rw [List.getElem?_take_of_lt hi, List.getElem?_drop]

/-! Claim theorems. -/

/-- C1: the spec claims the parsed (partNumber, ETag) sequence must be strictly increasing,
the first out-of-order or duplicate entry failing with InvalidPartOrder. The code's loop
never updates `prev`, so the out-of-order completion list [(2, ...), (1, ...)] and the
duplicate list [(1, ...), (1, ...)] are both parsed without any error - evaluating the code
at the failing inputs. -/
theorem C1_part_order_not_enforced :
    complete_multipart_body [(2, "etag2"), (1, "etag1")] =
      Except.ok [(2, "etag2"), (1, "etag1")] ∧
    complete_multipart_body [(1, "etagA"), (1, "etagB")] =
      Except.ok [(1, "etagA"), (1, "etagB")] :=
  ⟨rfl, rfl⟩

/-- C2: for a single range specifier in one of the two claim forms, the source's range
handler agrees exactly with the spec-side resolver `rangeResolverSpec`: it answers 416 when
the resolver deems the range unsatisfiable, and otherwise answers 206 carrying the
`content-range: bytes begin-end/L` header and the inclusive byte slice [begin, end] of the
content; the claim's three concrete length-10 examples follow as stated. -/
theorem C2_range_resolver :
    (∀ (content : List Nat) (hs : Headers) (b? e? : Option Int),
      b?.isSome = true ∨ e?.isSome = true →
      (rangeResolverSpec (content.length : Int) b? e? = none →
        handle_range_header_core hs content b? e? = (416, hs, [])) ∧
      (∀ b e : Int, rangeResolverSpec (content.length : Int) b? e? = some (b, e) →
        (handle_range_header_core hs content b? e?).1 = 206 ∧
        headerGet (handle_range_header_core hs content b? e?).2.1 "content-range" =
          some ("bytes " ++ toString b ++ "-" ++ toString e ++ "/" ++
            toString (content.length : Int)) ∧
        (handle_range_header_core hs content b? e?).2.2.length = (e + 1 - b).toNat ∧
        ∀ i : Nat, i < (e + 1 - b).toNat →
          (handle_range_header_core hs content b? e?).2.2[i]? = content[b.toNat + i]?)) ∧
    handle_range_header_core ([] : Headers) rangeDemoContent (some 2) (some 5) =
      (206, [("content-range", "bytes 2-5/10")], [2, 3, 4, 5]) ∧
    handle_range_header_core ([] : Headers) rangeDemoContent none (some 3) =
      (206, [("content-range", "bytes 7-9/10")], [7, 8, 9]) ∧
    (handle_range_header_core ([] : Headers) rangeDemoContent (some 20) (some 30)).1 =
      416 := by
  refine ⟨?_, rfl, rfl, rfl⟩
  intro content hs b? e? hsome
  rcases b? with _ | b <;> rcases e? with _ | ev
  · simp at hsome
  · -- suffix form: begin = L - min(suffixLength, L), end = L - 1
    by_cases hc : (content.length : Int) - min ev (content.length : Int) < 0 ∨
        (content.length : Int) - 1 > (content.length : Int) - 1 ∨
        (content.length : Int) - min ev (content.length : Int) >
          min ((content.length : Int) - 1) ((content.length : Int) - 1)
    · refine ⟨fun _ => ?_, fun b e hspec => ?_⟩
      · simp only [handle_range_header_core, hc, if_true]
      · simp only [rangeResolverSpec, hc, if_true] at hspec
        exact Option.noConfusion hspec
    · refine ⟨fun hnone => ?_, fun b e hspec => ?_⟩
      · simp only [rangeResolverSpec, hc, if_false] at hnone
        exact Option.noConfusion hnone
      · simp only [rangeResolverSpec, hc, if_false, Option.some.injEq, Prod.mk.injEq]
          at hspec
        obtain ⟨rfl, rfl⟩ := hspec
        push_neg at hc
        obtain ⟨hb0, -, hble⟩ := hc
        simp only [handle_range_header_core]
        rw [if_neg (by push_neg; exact ⟨by omega, by omega, by omega⟩)]
        have hsl := slice_inclusive content
          ((content.length : Int) - min ev (content.length : Int))
          ((content.length : Int) - 1) (by omega) (by omega)
        exact ⟨rfl, headerGet_headerSet hs _ _, hsl.1, hsl.2⟩
  · -- begin present, end absent: end defaults to L - 1
    by_cases hc : b < 0 ∨ (content.length : Int) - 1 > (content.length : Int) - 1 ∨
        b > min ((content.length : Int) - 1) ((content.length : Int) - 1)
    · refine ⟨fun _ => ?_, fun b2 e2 hspec => ?_⟩
      · simp only [handle_range_header_core, hc, if_true]
      · simp only [rangeResolverSpec, hc, if_true] at hspec
        exact Option.noConfusion hspec
    · refine ⟨fun hnone => ?_, fun b2 e2 hspec => ?_⟩
      · simp only [rangeResolverSpec, hc, if_false] at hnone
        exact Option.noConfusion hnone
      · simp only [rangeResolverSpec, hc, if_false, Option.some.injEq, Prod.mk.injEq]
          at hspec
        obtain ⟨rfl, rfl⟩ := hspec
        push_neg at hc
        obtain ⟨hb0, -, hble⟩ := hc
        simp only [handle_range_header_core]
        rw [if_neg (by push_neg; exact ⟨by omega, by omega, by omega⟩)]
        have hsl := slice_inclusive content b ((content.length : Int) - 1)
          (by omega) (by omega)
        exact ⟨rfl, headerGet_headerSet hs _ _, hsl.1, hsl.2⟩
  · -- begin and end both present: end clamps to L - 1
    by_cases hc : b < 0 ∨ min ev ((content.length : Int) - 1) > (content.length : Int) - 1 ∨
        b > min (min ev ((content.length : Int) - 1)) ((content.length : Int) - 1)
    · refine ⟨fun _ => ?_, fun b2 e2 hspec => ?_⟩
      · simp only [handle_range_header_core, hc, if_true]
      · simp only [rangeResolverSpec, hc, if_true] at hspec
        exact Option.noConfusion hspec
    · refine ⟨fun hnone => ?_, fun b2 e2 hspec => ?_⟩
      · simp only [rangeResolverSpec, hc, if_false] at hnone
        exact Option.noConfusion hnone
      · simp only [rangeResolverSpec, hc, if_false, Option.some.injEq, Prod.mk.injEq]
          at hspec
        obtain ⟨rfl, rfl⟩ := hspec
        push_neg at hc
        obtain ⟨hb0, hetop, hble⟩ := hc
        simp only [handle_range_header_core]
        rw [if_neg (by push_neg; exact ⟨by omega, by omega, by omega⟩)]
        have hsl := slice_inclusive content b (min ev ((content.length : Int) - 1))
          (by omega) (by omega)
        exact ⟨rfl, headerGet_headerSet hs _ _, hsl.1, hsl.2⟩

/-- Witness for C2 at the claim's own example: length-10 content, `bytes=2-5`. -/
theorem C2_range_resolver_witness :
    ((some (2 : Int)).isSome = true ∨ (some (5 : Int)).isSome = true) ∧
    rangeResolverSpec ((rangeDemoContent.length : Int)) (some 2) (some 5) = some (2, 5) ∧
    ((handle_range_header_core ([] : Headers) rangeDemoContent (some 2) (some 5)).1 = 206 ∧
      headerGet (handle_range_header_core ([] : Headers) rangeDemoContent
          (some 2) (some 5)).2.1 "content-range" =
        some ("bytes " ++ toString (2 : Int) ++ "-" ++ toString (5 : Int) ++ "/" ++
          toString ((rangeDemoContent.length : Int))) ∧
      (handle_range_header_core ([] : Headers) rangeDemoContent
          (some 2) (some 5)).2.2.length = ((5 : Int) + 1 - 2).toNat ∧
      ∀ i : Nat, i < ((5 : Int) + 1 - 2).toNat →
        (handle_range_header_core ([] : Headers) rangeDemoContent
          (some 2) (some 5)).2.2[i]? = rangeDemoContent[(2 : Int).toNat + i]?) :=
  ⟨Or.inl rfl, by decide,
    (C2_range_resolver.1 rangeDemoContent [] (some 2) (some 5) (Or.inl rfl)).2 2 5
      (by decide)⟩

/-- C3: a PUT on bucket scope with no recognized subresource marker, for a name that is
already taken, silently reuses the existing bucket with a 200 success when the requested
region is the default region, and fails with BucketAlreadyExists for any other region. -/
theorem C3_create_bucket_duplicate (st : S3Backend) (qs : List String)
    (region_name bucket_name : String) (headers : Headers)
    (hv hl hp ha hw : Except PyExc (S3Backend × (Nat × Headers × String)))
    (b0 : FakeBucket)
    (hmark : "versioning" ∉ qs ∧ "lifecycle" ∉ qs ∧ "policy" ∉ qs ∧
      "acl" ∉ qs ∧ "website" ∉ qs)
    (htaken : findBucket st bucket_name = some b0) :
    (region_name = DEFAULT_REGION_NAME →
      bucket_response_put st qs region_name bucket_name headers hv hl hp ha hw =
        Except.ok (st, (200, headers, renderBucketCreate b0))) ∧
    (region_name ≠ DEFAULT_REGION_NAME →
      bucket_response_put st qs region_name bucket_name headers hv hl hp ha hw =
        Except.error bucketAlreadyExistsExc) := by
  obtain ⟨h1, h2, h3, h4, h5⟩ := hmark
  have hdisp : bucket_response_put st qs region_name bucket_name headers hv hl hp ha hw =
      bucket_response_put_create st region_name bucket_name headers := by
    simp [bucket_response_put, h1, h2, h3, h4, h5]
  constructor
  · intro hreg
    rw [hdisp]
    simp [bucket_response_put_create, create_bucket, htaken, get_bucket, hreg,
      bucketAlreadyExistsExc, PyExc.isBucketAlreadyExists]
  · intro hreg
    rw [hdisp]
    simp [bucket_response_put_create, create_bucket, htaken, get_bucket, hreg,
      bucketAlreadyExistsExc, PyExc.isBucketAlreadyExists]

/-- Witness for C3: one store, the taken name, both the default and another region. -/
theorem C3_create_bucket_duplicate_witness :
    ("versioning" ∉ ([] : List String) ∧ "lifecycle" ∉ ([] : List String) ∧
      "policy" ∉ ([] : List String) ∧ "acl" ∉ ([] : List String) ∧
      "website" ∉ ([] : List String)) ∧
    findBucket ⟨[⟨"mybucket", "us-west-2", []⟩]⟩ "mybucket" =
      some ⟨"mybucket", "us-west-2", []⟩ ∧
    bucket_response_put ⟨[⟨"mybucket", "us-west-2", []⟩]⟩ [] "us-east-1" "mybucket" []
        (Except.error PyExc.keyError) (Except.error PyExc.keyError)
        (Except.error PyExc.keyError) (Except.error PyExc.keyError)
        (Except.error PyExc.keyError) =
      Except.ok (⟨[⟨"mybucket", "us-west-2", []⟩]⟩,
        (200, [], renderBucketCreate ⟨"mybucket", "us-west-2", []⟩)) ∧
    bucket_response_put ⟨[⟨"mybucket", "us-west-2", []⟩]⟩ [] "eu-west-1" "mybucket" []
        (Except.error PyExc.keyError) (Except.error PyExc.keyError)
        (Except.error PyExc.keyError) (Except.error PyExc.keyError)
        (Except.error PyExc.keyError) =
      Except.error bucketAlreadyExistsExc :=
  ⟨by decide, rfl,
    (C3_create_bucket_duplicate ⟨[⟨"mybucket", "us-west-2", []⟩]⟩ [] "us-east-1"
      "mybucket" [] (Except.error PyExc.keyError) (Except.error PyExc.keyError)
      (Except.error PyExc.keyError) (Except.error PyExc.keyError)
      (Except.error PyExc.keyError) ⟨"mybucket", "us-west-2", []⟩
      ⟨by decide, by decide, by decide, by decide, by decide⟩ rfl).1 rfl,
    (C3_create_bucket_duplicate ⟨[⟨"mybucket", "us-west-2", []⟩]⟩ [] "eu-west-1"
      "mybucket" [] (Except.error PyExc.keyError) (Except.error PyExc.keyError)
      (Except.error PyExc.keyError) (Except.error PyExc.keyError)
      (Except.error PyExc.keyError) ⟨"mybucket", "us-west-2", []⟩
      ⟨by decide, by decide, by decide, by decide, by decide⟩ rfl).2 (by decide)⟩

/-- C4 counterexample: a 200 response plus a comma-bearing Range specifier makes the
dispatcher raise NotImplementedError out of `key_response` - a raw escaping failure, so the
claim that multiple ranges are rejected with a structured error response is false at this
input. -/
theorem C4_counterexample :
    key_response [] [("range", "bytes=0-1,2-2")] (Except.ok (RawResponse.str [0, 1, 2])) =
      Except.error (PyExc.notImplementedError "Multiple range specifiers not supported") :=
  rfl

/-- C4 amended: a comma anywhere in the range specifier makes `_handle_range_header` raise
NotImplementedError - which is not in the S3ClientError family and is raised after
`key_response`'s catch, so it propagates out of the dispatcher as a hard failure instead of
being converted to a structured response. -/
theorem C4_amended (headers requestHeaders : Headers) (content s : List Nat)
    (rv u rspec : String)
    (hsplit : pySplit '=' rv = [u, rspec]) (hcomma : rspec.data.contains ',' = true) :
    handle_range_header headers content rv =
      Except.error (PyExc.notImplementedError "Multiple range specifiers not supported") ∧
    (headerGet requestHeaders "range" = some rv →
      key_response headers requestHeaders (Except.ok (RawResponse.str s)) =
        Except.error
          (PyExc.notImplementedError "Multiple range specifiers not supported")) := by
  have hmem : ',' ∈ rspec.data := by simpa using hcomma
  have hgen : ∀ c : List Nat, handle_range_header headers c rv =
      Except.error (PyExc.notImplementedError "Multiple range specifiers not supported") := by
    intro c
    simp [handle_range_header, hsplit, Bind.bind, Except.bind, hmem]
  refine ⟨hgen content, fun hr => ?_⟩
  simp [key_response, hr, hgen s]

/-- Witness for C4's amended claim at a concrete comma-bearing specifier. -/
theorem C4_amended_witness :
    pySplit '=' "bytes=3-4,6-7" = ["bytes", "3-4,6-7"] ∧
    "3-4,6-7".data.contains ',' = true ∧
    handle_range_header ([] : Headers) ([5, 6, 7] : List Nat) "bytes=3-4,6-7" =
      Except.error (PyExc.notImplementedError "Multiple range specifiers not supported") ∧
    key_response [] [("range", "bytes=3-4,6-7")] (Except.ok (RawResponse.str [5, 6, 7])) =
      Except.error (PyExc.notImplementedError "Multiple range specifiers not supported") :=
  ⟨rfl, rfl,
    (C4_amended [] [("range", "bytes=3-4,6-7")] [5, 6, 7] [5, 6, 7] "bytes=3-4,6-7"
      "bytes" "3-4,6-7" rfl rfl).1,
    (C4_amended [] [("range", "bytes=3-4,6-7")] [5, 6, 7] [5, 6, 7] "bytes=3-4,6-7"
      "bytes" "3-4,6-7" rfl rfl).2 rfl⟩

/-- C6: a DELETE on bucket scope with no policy or lifecycle marker removes an empty bucket
with a 204 (the name stops resolving), and answers a non-empty bucket with a normal 409
BucketNotEmpty response, leaving the store untouched - a reported conflict, never a raised
exception. -/
theorem C6_delete_bucket (st : S3Backend) (qs : List String) (bucket_name : String)
    (headers : Headers)
    (onPolicy onLifecycle : Except PyExc (S3Backend × (Nat × Headers × String)))
    (b0 : FakeBucket)
    (hq : "policy" ∉ qs ∧ "lifecycle" ∉ qs)
    (hb : findBucket st bucket_name = some b0) :
    (b0.keys = [] →
      bucket_response_delete st qs bucket_name headers onPolicy onLifecycle =
        Except.ok (⟨st.buckets.filter (fun b2 => b2.name != bucket_name)⟩,
          (204, headers, renderDeleteBucketSuccess)) ∧
      findBucket ⟨st.buckets.filter (fun b2 => b2.name != bucket_name)⟩ bucket_name =
        none) ∧
    (b0.keys ≠ [] →
      bucket_response_delete st qs bucket_name headers onPolicy onLifecycle =
        Except.ok (st, (409, headers, renderBucketNotEmpty))) ∧
    (∃ p q2 : String,
      renderBucketNotEmpty = p ++ ("<Code>BucketNotEmpty</Code>" ++ q2)) := by
  obtain ⟨h1, h2⟩ := hq
  refine ⟨fun hk => ⟨?_, ?_⟩, fun hk => ?_, ⟨"<Error>",
    "<Message>The bucket you tried to delete is not empty</Message><BucketName></BucketName><RequestId>asdfasdfsdafds</RequestId><HostId>sdfgdsfgdsfgdfsdsfgdfs</HostId></Error>",
    rfl⟩⟩
  · simp [bucket_response_delete, h1, h2, delete_bucket, hb, hk]
  · exact findBucket_filter_ne st.buckets bucket_name
  · simp [bucket_response_delete, h1, h2, delete_bucket, hb, hk]

/-- Witness for C6: an empty bucket is removed with 204; a non-empty one stays with 409. -/
theorem C6_delete_bucket_witness :
    ("policy" ∉ ([] : List String) ∧ "lifecycle" ∉ ([] : List String)) ∧
    findBucket ⟨[⟨"empty", "us-east-1", []⟩]⟩ "empty" = some ⟨"empty", "us-east-1", []⟩ ∧
    (bucket_response_delete ⟨[⟨"empty", "us-east-1", []⟩]⟩ [] "empty" []
        (Except.error PyExc.keyError) (Except.error PyExc.keyError) =
      Except.ok (⟨[]⟩, (204, [], renderDeleteBucketSuccess)) ∧
      findBucket ⟨[]⟩ "empty" = none) ∧
    bucket_response_delete ⟨[⟨"full", "us-east-1", ["k1"]⟩]⟩ [] "full" []
        (Except.error PyExc.keyError) (Except.error PyExc.keyError) =
      Except.ok (⟨[⟨"full", "us-east-1", ["k1"]⟩]⟩, (409, [], renderBucketNotEmpty)) :=
  ⟨by decide, rfl,
    (C6_delete_bucket ⟨[⟨"empty", "us-east-1", []⟩]⟩ [] "empty" [] _ _
      ⟨"empty", "us-east-1", []⟩ ⟨by decide, by decide⟩ rfl).1 rfl,
    (C6_delete_bucket ⟨[⟨"full", "us-east-1", ["k1"]⟩]⟩ [] "full" [] _ _
      ⟨"full", "us-east-1", ["k1"]⟩ ⟨by decide, by decide⟩ rfl).2.1 (by decide)⟩

/-- C7: on both scopes the dispatcher catches exactly the S3ClientError family, converting
each such error to the structured (status, headers, body) triple built from the error's own
code and description; NotImplementedError passes through both boundaries raw, and an
unrecognized method raises it from the routing match itself. -/
theorem C7_error_boundary :
    (∀ (headers : Headers) (ec : String) (stc : Nat) (d : String),
      bucket_response headers (Except.error (PyExc.s3client ec stc d)) =
        Except.ok (stc, headers, d)) ∧
    (∀ (headers : Headers) (msg : String),
      bucket_response headers (Except.error (PyExc.notImplementedError msg)) =
        Except.error (PyExc.notImplementedError msg)) ∧
    (∀ (headers requestHeaders : Headers) (ec : String) (stc : Nat) (d : String),
      stc ≠ 200 →
      key_response headers requestHeaders (Except.error (PyExc.s3client ec stc d)) =
        Except.ok (stc, headers, strBytes d)) ∧
    (∀ (headers requestHeaders : Headers) (msg : String),
      key_response headers requestHeaders (Except.error (PyExc.notImplementedError msg)) =
        Except.error (PyExc.notImplementedError msg)) ∧
    (∀ (method : String) (onHead onGet onPut onDelete onPost :
        Except PyExc (RawResponse String)),
      ¬ (method = "HEAD" ∨ method = "GET" ∨ method = "PUT" ∨ method = "DELETE" ∨
        method = "POST") →
      bucket_response_method_dispatch method onHead onGet onPut onDelete onPost =
        Except.error (PyExc.notImplementedError
          ("Method " ++ method ++ " has not been impelemented in the S3 backend yet"))) ∧
    (∀ (method : String) (onGet onPut onHead onDelete onPost :
        Except PyExc (RawResponse (List Nat))),
      ¬ (method = "GET" ∨ method = "PUT" ∨ method = "HEAD" ∨ method = "DELETE" ∨
        method = "POST") →
      key_response_method_dispatch method onGet onPut onHead onDelete onPost =
        Except.error (PyExc.notImplementedError
          ("Method " ++ method ++ " has not been impelemented in the S3 backend yet"))) := by
  refine ⟨fun _ _ _ _ => rfl, fun _ _ => rfl, ?_, fun _ _ _ => rfl, ?_, ?_⟩
  · intro headers requestHeaders ec stc d hst
    cases hrv : headerGet requestHeaders "range" with
    | none => simp [key_response, hrv]
    | some rv => simp [key_response, hrv, hst]
  · intro method h1 h2 h3 h4 h5 hm
    push_neg at hm
    obtain ⟨m1, m2, m3, m4, m5⟩ := hm
    simp [bucket_response_method_dispatch, m1, m2, m3, m4, m5]
  · intro method h1 h2 h3 h4 h5 hm
    push_neg at hm
    obtain ⟨m1, m2, m3, m4, m5⟩ := hm
    simp [key_response_method_dispatch, m1, m2, m3, m4, m5]

/-- Witness for C7: a 409 client error is converted on the key path, and the unrecognized
method PATCH raises the hard NotImplementedError. -/
theorem C7_error_boundary_witness :
    ((409 : Nat) ≠ 200) ∧
    key_response [] [] (Except.error (PyExc.s3client "BucketNotEmpty" 409 "conflict")) =
      Except.ok (409, [], strBytes "conflict") ∧
    (¬ ("PATCH" = "HEAD" ∨ "PATCH" = "GET" ∨ "PATCH" = "PUT" ∨ "PATCH" = "DELETE" ∨
      "PATCH" = "POST")) ∧
    bucket_response_method_dispatch "PATCH" (Except.error PyExc.keyError)
        (Except.error PyExc.keyError) (Except.error PyExc.keyError)
        (Except.error PyExc.keyError) (Except.error PyExc.keyError) =
      Except.error (PyExc.notImplementedError
        ("Method " ++ "PATCH" ++ " has not been impelemented in the S3 backend yet")) :=
  ⟨by decide,
    C7_error_boundary.2.2.1 [] [] "BucketNotEmpty" 409 "conflict" (by decide),
    by decide,
    C7_error_boundary.2.2.2.2.1 "PATCH" _ _ _ _ _ (by decide)⟩

/-- C8: the restore branch answers 202 for a key never restored before and 200 for a key
whose restore expiry date is already set, and in both cases resets the key's restore state
from the supplied number of days. -/
theorem C8_restore (key : FakeKey) (today days : Nat) (headers : Headers) :
    (key.expiry_date = none →
      key_response_post_restore key today days headers =
        ((202, headers, ""), { key with expiry_date := some (today + days) })) ∧
    (∀ d0 : Nat, key.expiry_date = some d0 →
      key_response_post_restore key today days headers =
        ((200, headers, ""), { key with expiry_date := some (today + days) })) := by
  constructor
  · intro h
    simp [key_response_post_restore, FakeKey.restore, h]
  · intro d0 h
    simp [key_response_post_restore, FakeKey.restore, h]

/-- Witness for C8: a fresh key gets 202, an already-restored key gets 200; both end with
the expiry recomputed from the supplied days. -/
theorem C8_restore_witness :
    (FakeKey.mk "k" none).expiry_date = none ∧
    key_response_post_restore ⟨"k", none⟩ 100 7 [] = ((202, [], ""), ⟨"k", some 107⟩) ∧
    (FakeKey.mk "k" (some 50)).expiry_date = some 50 ∧
    key_response_post_restore ⟨"k", some 50⟩ 100 7 [] = ((200, [], ""), ⟨"k", some 107⟩) :=
  ⟨rfl, (C8_restore ⟨"k", none⟩ 100 7 []).1 rfl, rfl,
    (C8_restore ⟨"k", some 50⟩ 100 7 []).2 50 rfl⟩

theorem gatherGrants_eq_spec (hs : Headers) : gatherGrants hs = aclResolverSpecGrants hs := by
  induction hs with
  | nil => rfl
  | cons x rest ih =>
    obtain ⟨header, value⟩ := x
    by_cases hg : strStarts "x-amz-grant-" header
    · cases hperm : grantPermission? (strDrop header 12) with
      | none =>
        simp [gatherGrants, aclResolverSpecGrants, grantsOfHeaders, specGrantOfHeader,
          List.filter_cons, hg, hperm, Bind.bind, Except.bind]
      | some permission =>
        cases hpg : parseGrantees value with
        | error e =>
          simp [gatherGrants, aclResolverSpecGrants, grantsOfHeaders, specGrantOfHeader,
            List.filter_cons, hg, hperm, hpg, Bind.bind, Except.bind]
        | ok gs =>
          simp only [gatherGrants, aclResolverSpecGrants, grantsOfHeaders,
            specGrantOfHeader, List.filter_cons, hg, if_true, hperm, hpg, Bind.bind,
            Except.bind]
          rw [ih]
          rfl
    · simp only [gatherGrants, hg, if_false, Bool.false_eq_true]
      rw [ih]
      simp [aclResolverSpecGrants, List.filter_cons, hg]

theorem gatherGrants_of_no_grant (hs : Headers)
    (h : ∀ p ∈ hs, strStarts "x-amz-grant-" p.1 = false) :
    gatherGrants hs = Except.ok [] := by
  induction hs with
  | nil => rfl
  | cons x rest ih =>
    obtain ⟨header, value⟩ := x
    have hx := h (header, value) (List.mem_cons_self _ _)
    simp only [gatherGrants, hx, Bool.false_eq_true, if_false]
    exact ih (fun p hp => h p (List.mem_cons_of_mem _ hp))

/-- C5: the source ACL resolver coincides with the spec-side resolver; in particular a
non-empty canned-ACL header short-circuits to the canned expansion whatever grant headers
are also present, and a request with neither a canned nor any grant header resolves to the
distinct no-ACL result (Python None), never an empty-but-present ACL. -/
theorem C5_acl_resolver :
    (∀ hs : Headers, acl_from_headers hs = aclResolverSpec hs) ∧
    (∀ (hs : Headers) (c : String), headerGet hs "x-amz-acl" = some c → c ≠ "" →
      acl_from_headers hs = Except.ok (some (get_canned_acl c))) ∧
    (∀ hs : Headers,
      (headerGet hs "x-amz-acl" = none ∨ headerGet hs "x-amz-acl" = some "") →
      (∀ p ∈ hs, strStarts "x-amz-grant-" p.1 = false) →
      acl_from_headers hs = Except.ok none) := by
  refine ⟨?_, ?_, ?_⟩
  · intro hs
    unfold acl_from_headers aclResolverSpec
    by_cases hc : (headerGet hs "x-amz-acl").getD "" = ""
    · simp only [hc, ne_eq, not_true_eq_false, if_false]
      rw [gatherGrants_eq_spec]
      cases hg : aclResolverSpecGrants hs with
      | error e => simp [Bind.bind, Except.bind]
      | ok gs =>
        simp only [Bind.bind, Except.bind]
        by_cases hgs : gs.isEmpty <;> simp [hgs]
    · simp [hc]
  · intro hs c hcacl hcne
    simp [acl_from_headers, hcacl, hcne]
  · intro hs hnone hng
    have hcan : (headerGet hs "x-amz-acl").getD "" = "" := by
      rcases hnone with h | h <;> simp [h]
    simp [acl_from_headers, hcan, gatherGrants_of_no_grant hs hng, Bind.bind, Except.bind]

/-- Witness for C5 at the claim's own example: `x-amz-acl: public-read` present together
with an `x-amz-grant-read` header yields exactly the canned expansion. -/
theorem C5_acl_resolver_witness :
    headerGet [("x-amz-acl", "public-read"), ("x-amz-grant-read", "id=\"abc\"")]
      "x-amz-acl" = some "public-read" ∧
    ("public-read" ≠ "") ∧
    acl_from_headers [("x-amz-acl", "public-read"), ("x-amz-grant-read", "id=\"abc\"")] =
      Except.ok (some (get_canned_acl "public-read")) :=
  ⟨rfl, by decide,
    C5_acl_resolver.2.1 [("x-amz-acl", "public-read"), ("x-amz-grant-read", "id=\"abc\"")]
      "public-read" rfl (by decide)⟩

/-- C9: both the object-listing and the version-listing branches answer 200 with the full
result set rendered in one body whose IsTruncated marker is the literal text false; the
object-listing branch reads only the prefix and delimiter parameters (so max-keys and
markers cannot change it) and the version backend ignores its pagination parameters. -/
theorem C9_no_truncation :
    (∀ (bucket : FakeBucket) (keyInfos : List KeyRenderInfo) (qs : QueryString)
        (headers : Headers),
      (bucket_response_get_list bucket keyInfos qs headers).1 = 200 ∧
      ∃ p q : String, (bucket_response_get_list bucket keyInfos qs headers).2.2 =
        p ++ "<IsTruncated>false</IsTruncated>" ++ q) ∧
    (∀ (bucket : FakeBucket) (keyInfos : List KeyRenderInfo) (qs : QueryString)
        (headers : Headers) (k : KeyRenderInfo),
      k ∈ (prefix_query keyInfos (qsGet qs "prefix") (qsGet qs "delimiter")).1 →
      ∃ p q : String, (bucket_response_get_list bucket keyInfos qs headers).2.2 =
        p ++ renderListContents k ++ q) ∧
    (∀ (bucket : FakeBucket) (keyInfos : List KeyRenderInfo) (qs qs2 : QueryString)
        (headers : Headers),
      qsGet qs "prefix" = qsGet qs2 "prefix" →
      qsGet qs "delimiter" = qsGet qs2 "delimiter" →
      bucket_response_get_list bucket keyInfos qs headers =
        bucket_response_get_list bucket keyInfos qs2 headers) ∧
    (∀ (bucket : FakeBucket) (versions : List VersionRenderInfo) (qs : QueryString)
        (headers : Headers),
      (bucket_response_get_versions bucket versions qs headers).1 = 200 ∧
      ∃ p q : String, (bucket_response_get_versions bucket versions qs headers).2.2 =
        p ++ "<IsTruncated>false</IsTruncated>" ++ q) ∧
    (∀ (bucket : FakeBucket) (versions : List VersionRenderInfo) (qs : QueryString)
        (headers : Headers) (v : VersionRenderInfo), v ∈ versions →
      ∃ p q : String, (bucket_response_get_versions bucket versions qs headers).2.2 =
        p ++ renderVersionEntry v ++ q) := by
  have hlit0 : ("<IsTruncated>" ++ "false" ++ "</IsTruncated>" : String) =
      "<IsTruncated>false</IsTruncated>" := rfl
  have hlit : ∀ X : String,
      "<IsTruncated>" ++ ("false" ++ ("</IsTruncated>" ++ X)) =
        "<IsTruncated>false</IsTruncated>" ++ X := by
    intro X
    rw [← String.append_assoc, ← String.append_assoc, hlit0]
  refine ⟨?_, ?_, ?_, ?_, ?_⟩
  · intro bucket keyInfos qs headers
    refine ⟨rfl, renderListHead bucket.name (qsGet qs "prefix") (qsGet qs "delimiter"),
      strConcat ((prefix_query keyInfos (qsGet qs "prefix")
          (qsGet qs "delimiter")).1.map renderListContents) ++
        renderFolders (qsGet qs "delimiter")
          (prefix_query keyInfos (qsGet qs "prefix") (qsGet qs "delimiter")).2 ++
        "</ListBucketResult>", ?_⟩
    simp [bucket_response_get_list, renderBucketGetResponse, String.append_assoc]
  · intro bucket keyInfos qs headers k hk
    obtain ⟨p0, q0, hp0⟩ := strConcat_of_mem renderListContents hk
    refine ⟨renderListHead bucket.name (qsGet qs "prefix") (qsGet qs "delimiter") ++
      "<IsTruncated>false</IsTruncated>" ++ p0,
      q0 ++ renderFolders (qsGet qs "delimiter")
        (prefix_query keyInfos (qsGet qs "prefix") (qsGet qs "delimiter")).2 ++
      "</ListBucketResult>", ?_⟩
    simp [bucket_response_get_list, renderBucketGetResponse, hp0, String.append_assoc]
  · intro bucket keyInfos qs qs2 headers h1 h2
    simp [bucket_response_get_list, h1, h2]
  · intro bucket versions qs headers
    refine ⟨rfl, renderVersionsHead bucket.name "" "" "",
      strConcat (versions.map renderVersionEntry) ++ "</ListVersionsResult>", ?_⟩
    simp only [bucket_response_get_versions, renderBucketVersions, get_bucket_versions,
      String.append_assoc]
    rw [hlit]
  · intro bucket versions qs headers v hv
    obtain ⟨p0, q0, hp0⟩ := strConcat_of_mem renderVersionEntry hv
    refine ⟨renderVersionsHead bucket.name "" "" "" ++ "<IsTruncated>" ++ "false" ++
      "</IsTruncated>" ++ p0, q0 ++ "</ListVersionsResult>", ?_⟩
    simp [bucket_response_get_versions, renderBucketVersions, get_bucket_versions, hp0,
      String.append_assoc]

/-- Witness for C9: a concrete two-key bucket with a max-keys parameter of 1 still renders
the first key, and changing max-keys leaves the listing untouched. -/
theorem C9_no_truncation_witness :
    (⟨"a/b", "lm", "e1", 3, "STANDARD"⟩ : KeyRenderInfo) ∈
      (prefix_query [⟨"a/b", "lm", "e1", 3, "STANDARD"⟩, ⟨"d", "lm", "e2", 4, "STANDARD"⟩]
        (qsGet [("max-keys", ["1"])] "prefix") (qsGet [("max-keys", ["1"])] "delimiter")).1 ∧
    (∃ p q : String,
      (bucket_response_get_list ⟨"bkt", "us-east-1", []⟩
        [⟨"a/b", "lm", "e1", 3, "STANDARD"⟩, ⟨"d", "lm", "e2", 4, "STANDARD"⟩]
        [("max-keys", ["1"])] []).2.2 =
      p ++ renderListContents ⟨"a/b", "lm", "e1", 3, "STANDARD"⟩ ++ q) ∧
    (qsGet [("max-keys", ["1"])] "prefix" = qsGet [("max-keys", ["9"])] "prefix") ∧
    (qsGet [("max-keys", ["1"])] "delimiter" = qsGet [("max-keys", ["9"])] "delimiter") ∧
    bucket_response_get_list ⟨"bkt", "us-east-1", []⟩
        [⟨"a/b", "lm", "e1", 3, "STANDARD"⟩, ⟨"d", "lm", "e2", 4, "STANDARD"⟩]
        [("max-keys", ["1"])] [] =
      bucket_response_get_list ⟨"bkt", "us-east-1", []⟩
        [⟨"a/b", "lm", "e1", 3, "STANDARD"⟩, ⟨"d", "lm", "e2", 4, "STANDARD"⟩]
        [("max-keys", ["9"])] [] :=
  ⟨by decide,
    C9_no_truncation.2.1 ⟨"bkt", "us-east-1", []⟩
      [⟨"a/b", "lm", "e1", 3, "STANDARD"⟩, ⟨"d", "lm", "e2", 4, "STANDARD"⟩]
      [("max-keys", ["1"])] [] ⟨"a/b", "lm", "e1", 3, "STANDARD"⟩ (by decide),
    rfl, rfl,
    C9_no_truncation.2.2.1 ⟨"bkt", "us-east-1", []⟩
      [⟨"a/b", "lm", "e1", 3, "STANDARD"⟩, ⟨"d", "lm", "e2", 4, "STANDARD"⟩]
      [("max-keys", ["1"])] [("max-keys", ["9"])] [] rfl rfl⟩

/-- C10: in bulk key deletion each listed name is processed independently: a name absent
from the store at its turn is appended to the error list while the names after it are
processed exactly as they would have been, the response status is 200 regardless, and the
body lists the deleted and the errored names separately. -/
theorem C10_bulk_delete (pre post : List String) (k : String) (keys : List String)
    (headers : Headers)
    (hk : k ∉ (delete_keys_loop pre keys).2.2) :
    (bucket_response_delete_keys (pre ++ k :: post) keys headers).1.1 = 200 ∧
    (delete_keys_loop (pre ++ k :: post) keys).1 =
      (delete_keys_loop pre keys).1 ++
        (delete_keys_loop post (delete_keys_loop pre keys).2.2).1 ∧
    (delete_keys_loop (pre ++ k :: post) keys).2.1 =
      (delete_keys_loop pre keys).2.1 ++
        k :: (delete_keys_loop post (delete_keys_loop pre keys).2.2).2.1 ∧
    (delete_keys_loop (pre ++ k :: post) keys).2.2 =
      (delete_keys_loop post (delete_keys_loop pre keys).2.2).2.2 ∧
    (bucket_response_delete_keys (pre ++ k :: post) keys headers).1.2.2 =
      renderDeleteKeys (delete_keys_loop (pre ++ k :: post) keys).1
        (delete_keys_loop (pre ++ k :: post) keys).2.1 := by
  refine ⟨rfl, ?_, ?_, ?_, rfl⟩ <;>
  · induction pre generalizing keys with
    | nil =>
      simp only [delete_keys_loop] at hk
      simp [delete_keys_loop, delete_key, hk]
    | cons x pre ih =>
      cases hdel : delete_key keys x with
      | ok keys2 =>
        have hk2 : k ∉ (delete_keys_loop pre keys2).2.2 := by
          simpa [delete_keys_loop, hdel] using hk
        simp [delete_keys_loop, hdel, ih keys2 hk2]
      | error e =>
        have hk2 : k ∉ (delete_keys_loop pre keys).2.2 := by
          simpa [delete_keys_loop, hdel] using hk
        simp [delete_keys_loop, hdel, ih keys hk2]

/-- Witness for C10: deleting [a, b, c] from a store holding only a and c errors on b,
still deletes both a and c, and answers 200. -/
theorem C10_bulk_delete_witness :
    "b" ∉ (delete_keys_loop ["a"] ["a", "c"]).2.2 ∧
    ((bucket_response_delete_keys (["a"] ++ "b" :: ["c"]) ["a", "c"] []).1.1 = 200 ∧
    (delete_keys_loop (["a"] ++ "b" :: ["c"]) ["a", "c"]).1 =
      (delete_keys_loop ["a"] ["a", "c"]).1 ++
        (delete_keys_loop ["c"] (delete_keys_loop ["a"] ["a", "c"]).2.2).1 ∧
    (delete_keys_loop (["a"] ++ "b" :: ["c"]) ["a", "c"]).2.1 =
      (delete_keys_loop ["a"] ["a", "c"]).2.1 ++
        "b" :: (delete_keys_loop ["c"] (delete_keys_loop ["a"] ["a", "c"]).2.2).2.1 ∧
    (delete_keys_loop (["a"] ++ "b" :: ["c"]) ["a", "c"]).2.2 =
      (delete_keys_loop ["c"] (delete_keys_loop ["a"] ["a", "c"]).2.2).2.2 ∧
    (bucket_response_delete_keys (["a"] ++ "b" :: ["c"]) ["a", "c"] []).1.2.2 =
      renderDeleteKeys (delete_keys_loop (["a"] ++ "b" :: ["c"]) ["a", "c"]).1
        (delete_keys_loop (["a"] ++ "b" :: ["c"]) ["a", "c"]).2.1) :=
  ⟨by decide, C10_bulk_delete ["a"] ["c"] "b" ["a", "c"] [] (by decide)⟩

end MotoS3
